import Mathlib

/-!
Verification of the schema-introspection and path-addressable data engine
of the react-formgen repository.

The zod adapter is embedded as follows: zod schemas (`z.$ZodType`) become
the inductive `Schema`, whose constructors carry the same `def.type` tags
the source dispatches on (`optional`, `nullable`, `default`, `prefault`,
`readonly`, `nonoptional`, `lazy`, the scalar leaves, `array`, `object`,
`union`, `tuple`, `enum`, `literal`).  JavaScript runtime values — the
`ZeroState`/`FormDocument` domain — become the inductive `Value`, with
`Value.undefined` standing for JavaScript `undefined` (the "absent" marker).
A default value declared on a `default`/`prefault` wrapper is either a
literal value or a producer function; a producer is modelled by the
`Except` result of invoking it, so a throwing producer is an
`Except.error`.  Fallible computations (`generateInitialData`,
`getDefaultValue`) therefore run in `Except String`, where `Except.error`
models an uncaught JavaScript exception.

The json-schema adapter's error indexer (`getErrorsAtPath`) and the zod
adapter's issue lookup (`getIssuesAtPath`) are embedded over explicit
string splitting/joining helpers that mirror `String.prototype.split` and
`Array.prototype.join` with one-character separators.
-/

/-- JavaScript runtime values as produced/consumed by the engine:
`undefined` is JavaScript `undefined` (the "absent" marker, distinct from
`null`). -/
inductive Value where
  | undefined : Value
  | null : Value
  | str : String → Value
  | num : Int → Value
  | bool : Bool → Value
  | bigint : Int → Value
  | date : Int → Value
  | list : List Value → Value
  | obj : List (String × Value) → Value
deriving Repr

/-- The `defaultValue` slot of a zod `default`/`prefault` wrapper: either a
literal value, or a default-producing function.  A producer is modelled by
the result of invoking it — `Except.error` models a producer that throws. -/
inductive DefaultVal where
  | value : Value → DefaultVal
  | producer : Except String Value → DefaultVal
deriving Repr

/-- A `min_size` style check attached to a zod array schema
(`_zod.def.checks`). -/
inductive ArrayCheck where
  | min_size : Nat → ArrayCheck
  | other : String → ArrayCheck
deriving Repr

/-- Zod schema nodes (`z.$ZodTypes`), tagged by the same `def.type` strings
the source dispatches on.  A `lazy` node's getter is modelled as directly
holding the schema it returns. -/
inductive Schema where
  | optional : Schema → Schema
  | nullable : Schema → Schema
  | default : DefaultVal → Schema → Schema
  | prefault : DefaultVal → Schema → Schema
  | readonly : Schema → Schema
  | nonoptional : Schema → Schema
  | lazy : Schema → Schema
  | string : Schema
  | number : Schema
  | boolean : Schema
  | bigint : Schema
  | date : Schema
  | array : List ArrayCheck → Schema → Schema
  | object : List (String × Schema) → Schema
  | union : List Schema → Schema
  | tuple : List Schema → Schema
  | enum : List (String × Value) → Schema
  | literal : List Value → Schema
  | unrecognized : String → Schema
deriving Repr

/-- Function `isRequired` from `packages/zod/src/utils/isRequired.ts`: `optional`
answers false; `nullable`/`default`/`readonly` recurse into the inner
node; every other kind (note: including `prefault`) answers true. -/
def isRequired : Schema → Bool
  | .optional _ => false
  | .nullable inner => isRequired inner
  | .default _ inner => isRequired inner
  | .readonly inner => isRequired inner
  | _ => true

/-- Function `isOptional` from `packages/zod/src/utils/isOptional.ts`: `optional`
answers true; `default`/`prefault`/`nullable`/`readonly` recurse into the
inner node; every other kind answers false. -/
def isOptional : Schema → Bool
  | .optional _ => true
  | .default _ inner => isOptional inner
  | .prefault _ inner => isOptional inner
  | .nullable inner => isOptional inner
  | .readonly inner => isOptional inner
  | _ => false

/-- Function `unwrapSchema` from `packages/zod/src/utils/unwrapSchema.ts`: peels
`optional`/`nullable`/`default`/`prefault`/`readonly`/`nonoptional`
wrappers and resolves `lazy` getters until a non-wrapper node is
reached. -/
def unwrapSchema : Schema → Schema
  | .optional inner => unwrapSchema inner
  | .nullable inner => unwrapSchema inner
  | .default _ inner => unwrapSchema inner
  | .prefault _ inner => unwrapSchema inner
  | .readonly inner => unwrapSchema inner
  | .nonoptional inner => unwrapSchema inner
  | .lazy inner => unwrapSchema inner
  | s => s

/-- Function `getDefaultValue` from `packages/zod/src/utils/getDefaultValue.ts`:
`default`/`prefault` return their declared default (invoking the producer
if it is a function — a throwing producer propagates);
`optional`/`nullable`/`readonly`/`nonoptional` recurse into the inner
node; all other kinds return `undefined`. -/
def getDefaultValue : Schema → Except String Value
  | .default dv _ =>
      match dv with
      | .value v => .ok v
      | .producer e => e
  | .prefault dv _ =>
      match dv with
      | .value v => .ok v
      | .producer e => e
  | .optional inner => getDefaultValue inner
  | .nullable inner => getDefaultValue inner
  | .readonly inner => getDefaultValue inner
  | .nonoptional inner => getDefaultValue inner
  | _ => .ok .undefined

/-- Test against JavaScript `undefined` (`=== undefined`). -/
def Value.isUndefined : Value → Bool
  | .undefined => true
  | _ => false

/-- The minimum of the first `min_size` check in the list, if any —
mirroring `checks?.find(check => check === "min_size")?.minimum`. -/
def findMinSize : List ArrayCheck → Option Nat
  | [] => none
  | .min_size n :: _ => some n
  | .other _ :: rest => findMinSize rest

/-- Peeling a wrapper never increases the node size, so the recursive
calls of the default-data generator (made on components of the unwrapped
node) strictly decrease in size. -/
def sizeOf_unwrapSchema_le : (s : Schema) → sizeOf (unwrapSchema s) ≤ sizeOf s
  | .optional inner => by
      have := sizeOf_unwrapSchema_le inner; simp only [unwrapSchema]; simp; omega
  | .nullable inner => by
      have := sizeOf_unwrapSchema_le inner; simp only [unwrapSchema]; simp; omega
  | .default _ inner => by
      have := sizeOf_unwrapSchema_le inner; simp only [unwrapSchema]; simp; omega
  | .prefault _ inner => by
      have := sizeOf_unwrapSchema_le inner; simp only [unwrapSchema]; simp; omega
  | .readonly inner => by
      have := sizeOf_unwrapSchema_le inner; simp only [unwrapSchema]; simp; omega
  | .nonoptional inner => by
      have := sizeOf_unwrapSchema_le inner; simp only [unwrapSchema]; simp; omega
  | .lazy inner => by
      have := sizeOf_unwrapSchema_le inner; simp only [unwrapSchema]; simp; omega
  | .string => by simp [unwrapSchema]
  | .number => by simp [unwrapSchema]
  | .boolean => by simp [unwrapSchema]
  | .bigint => by simp [unwrapSchema]
  | .date => by simp [unwrapSchema]
  | .array checks element => by simp [unwrapSchema]
  | .object shape => by simp [unwrapSchema]
  | .union options => by simp [unwrapSchema]
  | .tuple items => by simp [unwrapSchema]
  | .enum entries => by simp [unwrapSchema]
  | .literal values => by simp [unwrapSchema]
  | .unrecognized tag => by simp [unwrapSchema]

mutual
/-- Function `generateInitialData` from
`packages/zod/src/utils/generateInitialData.ts`: first return any declared
default reachable by `getDefaultValue`; else return `undefined` when the
node `isOptional`; else unwrap to the core node and branch on its kind
(scalars → `undefined`; array → `minimum`-many copies of the element's
initial data, or `[]` without a `min_size` check; object → the fields
whose own initial data is not `undefined`; union → first option; tuple →
all slots; enum/literal → first declared value; unrecognized → log and
`undefined`). -/
def generateInitialData (s : Schema) : Except String Value :=
  match getDefaultValue s with
  | .error e => .error e
  | .ok defaultValue =>
    if ¬ defaultValue.isUndefined then .ok defaultValue
    else if isOptional s then .ok .undefined
    else
      match h : unwrapSchema s with
      | .string => .ok .undefined
      | .number => .ok .undefined
      | .boolean => .ok .undefined
      | .bigint => .ok .undefined
      | .date => .ok .undefined
      | .array checks element =>
        match findMinSize checks with
        | some minSize =>
          match generateInitialData element with
          | .error e => .error e
          | .ok elementZeroState => .ok (.list (List.replicate minSize elementZeroState))
        | none => .ok (.list [])
      | .object shape =>
        match genFields shape with
        | .error e => .error e
        | .ok fields => .ok (.obj fields)
      | .union options =>
        match options with
        | firstOption :: _ => generateInitialData firstOption
        | [] => .ok .undefined
      | .tuple items =>
        match genItems items with
        | .error e => .error e
        | .ok vs => .ok (.list vs)
      | .enum entries =>
        match entries with
        | (_, v) :: _ => .ok v
        | [] => .ok .undefined
      | .literal values =>
        match values with
        | v :: _ => .ok v
        | [] => .ok .undefined
      | .lazy actual => generateInitialData actual
      | _ => .ok .undefined
termination_by sizeOf s
decreasing_by
  all_goals simp_wf
  all_goals (have hle := sizeOf_unwrapSchema_le s; rw [h] at hle; simp at hle; omega)

/-- The object branch of `generateInitialData`: synthesize each field in
declaration order, keeping only the fields whose initial data is not
`undefined`. -/
def genFields (shape : List (String × Schema)) : Except String (List (String × Value)) :=
  match shape with
  | [] => .ok []
  | (key, fieldSchema) :: rest =>
    match generateInitialData fieldSchema with
    | .error e => .error e
    | .ok fieldZeroState =>
      match genFields rest with
      | .error e => .error e
      | .ok vs => .ok (if fieldZeroState.isUndefined then vs else (key, fieldZeroState) :: vs)
termination_by sizeOf shape
decreasing_by
  all_goals simp_wf
  all_goals (try simp)
  all_goals omega

/-- The tuple branch of `generateInitialData`: map the generator over
every slot in order. -/
def genItems (items : List Schema) : Except String (List Value) :=
  match items with
  | [] => .ok []
  | item :: rest =>
    match generateInitialData item with
    | .error e => .error e
    | .ok v =>
      match genItems rest with
      | .error e => .error e
      | .ok vs => .ok (v :: vs)
termination_by sizeOf items
decreasing_by
  all_goals simp_wf
  all_goals (try simp)
  all_goals omega
end

/-- The wrapper kinds: exactly the cases `unwrapSchema` peels. -/
def isWrapperKind : Schema → Bool
  | .optional _ => true
  | .nullable _ => true
  | .default _ _ => true
  | .prefault _ _ => true
  | .readonly _ => true
  | .nonoptional _ => true
  | .lazy _ => true
  | _ => false

/-- Split a character list at every occurrence of `sep`, mirroring
JavaScript `String.prototype.split` with a one-character separator
(`acc` holds the reversed current segment). -/
def splitCharAux (sep : Char) : List Char → List Char → List (List Char)
  | [], acc => [acc.reverse]
  | c :: rest, acc =>
    if c = sep then acc.reverse :: splitCharAux sep rest []
    else splitCharAux sep rest (c :: acc)

/-- JavaScript `s.split(sep)` for a one-character separator `sep`. -/
def splitChar (sep : Char) (s : String) : List String :=
  (splitCharAux sep s.data []).map String.mk

/-- JavaScript `Array.prototype.join(sep)`. -/
def joinStr (sep : String) : List String → String
  | [] => ""
  | [x] => x
  | x :: y :: rest => x ++ sep ++ joinStr sep (y :: rest)

/-- An AJV validation error as consumed by the json-schema adapter's
`getErrorsAtPath`: `instancePath` (slash-delimited), the failed `keyword`,
`params.missingProperty` (meaningful when `keyword = "required"`), and the
message. -/
structure ErrorObject where
  instancePath : String
  keyword : String
  missingProperty : String
  message : String
deriving Repr, DecidableEq

/-- The `fullPath` normalization inside `getErrorsAtPath`:
`error.instancePath ? "/" + instancePath.split("/").slice(1).join("/") : "/"`. -/
def fullPathOf (instancePath : String) : String :=
  if instancePath = "" then "/"
  else "/" ++ joinStr "/" ((splitChar '/' instancePath).drop 1)

/-- The key an issue is bucketed under: a `required` failure is re-keyed
from the parent path to parent-path + `/` + missing-field-name; every
other issue keeps its normalized `fullPath`. -/
def missingKeyOf (e : ErrorObject) : String :=
  let fullPath := fullPathOf e.instancePath
  if e.keyword = "required" then
    (if fullPath = "/" then "" else fullPath) ++ "/" ++ e.missingProperty
  else fullPath

/-- Mirror of `errorMap[key] = errorMap[key] || []; errorMap[key].push(error)` over
an association list: append to the existing bucket for `key`, or create a
new singleton bucket. -/
def pushAt : List (String × List ErrorObject) → String → ErrorObject →
    List (String × List ErrorObject)
  | [], key, e => [(key, [e])]
  | (k, bucket) :: rest, key, e =>
    if k = key then (k, bucket ++ [e]) :: rest
    else (k, bucket) :: pushAt rest key e

/-- The `errorMap` built by `getErrorsAtPath` in
`packages/json-schema/src/index.ts`: every error is pushed onto the bucket
of its (re-keyed) path string. -/
def buildErrorMap (errors : List ErrorObject) : List (String × List ErrorObject) :=
  errors.foldl (fun m e => pushAt m (missingKeyOf e) e) []

/-- Lookup `errorMap[fullPath]`: association-list lookup. -/
def lookupBucket : List (String × List ErrorObject) → String → Option (List ErrorObject)
  | [], _ => none
  | (k, bucket) :: rest, key => if k = key then some bucket else lookupBucket rest key

/-- Function `getErrorsAtPath` of the json-schema adapter: build the error map,
then `errorMap["/" + path.join("/")] || []`. -/
def getErrorsAtPath (errors : List ErrorObject) (path : List String) : List ErrorObject :=
  match lookupBucket (buildErrorMap errors) ("/" ++ joinStr "/" path) with
  | some bucket => bucket
  | none => []

/-- One segment of a zod issue path (`PropertyKey`): a field name or an
array index. -/
inductive ZodSeg where
  | str : String → ZodSeg
  | idx : Nat → ZodSeg
deriving Repr, DecidableEq

/-- JavaScript `String(segment)` on a zod path segment. -/
def ZodSeg.toStr : ZodSeg → String
  | .str s => s
  | .idx n => toString n

/-- A zod validation issue (`z.$ZodIssue`): its path and message. -/
structure ZodIssue where
  path : List ZodSeg
  message : String
deriving Repr, DecidableEq

/-- Function `getIssuesAtPath` from `packages/zod/src/index.ts`: compare each
issue's `issue.path.map(String).join(".")` with `path.join(".")`, and
return the matching issues, or `undefined` (here `none`) when none
match. -/
def getIssuesAtPath (issues : List ZodIssue) (path : List String) : Option (List ZodIssue) :=
  let pathStr := joinStr "." path
  let matchingIssues :=
    issues.filter (fun issue => joinStr "." (issue.path.map ZodSeg.toStr) == pathStr)
  if matchingIssues.length > 0 then some matchingIssues else none

/-- The closed set of rendering outcomes of the json-schema adapter's
`RenderTemplate`: one template per supported single type, a disabled
input for `type: "null"`, the multi-type error placeholder for
unsupported unions, and the unsupported-type error placeholder (carrying
the offending type tag). -/
inductive TemplateKind where
  | stringTemplate : TemplateKind
  | numberTemplate : TemplateKind
  | booleanTemplate : TemplateKind
  | nullDisabledInput : TemplateKind
  | objectTemplate : TemplateKind
  | arrayTemplate : TemplateKind
  | multiTypeError : TemplateKind
  | unsupportedType : String → TemplateKind
deriving Repr, DecidableEq

/-- A (resolved) JSON-Schema `type` declaration: a single type name or an
array of type names. -/
inductive JSType where
  | single : String → JSType
  | multi : List String → JSType
deriving Repr, DecidableEq

/-- The `switch (schema.type)` of `RenderTemplate` in
`packages/json-schema/src/components/RenderTemplate.tsx` for a single
type name. -/
def dispatchSingle (t : String) : TemplateKind :=
  if t = "string" then .stringTemplate
  else if t = "integer" then .numberTemplate
  else if t = "number" then .numberTemplate
  else if t = "boolean" then .booleanTemplate
  else if t = "null" then .nullDisabledInput
  else if t = "object" then .objectTemplate
  else if t = "array" then .arrayTemplate
  else .unsupportedType t

/-- The type dispatch of `RenderTemplate` in
`packages/json-schema/src/components/RenderTemplate.tsx`: an array type
that is exactly two members including `"null"` and at least one of
`"string"`/`"number"`/`"boolean"`/`"integer"` collapses to the first
non-null member (by re-rendering with that single type); any other array
type renders the multi-type error placeholder; a single type goes through
the switch. -/
def renderTemplateDispatch : JSType → TemplateKind
  | .single t => dispatchSingle t
  | .multi ts =>
    if ts.length = 2 ∧ "null" ∈ ts ∧
        ("string" ∈ ts ∨ "number" ∈ ts ∨ "boolean" ∈ ts ∨ "integer" ∈ ts) then
      match ts.find? (fun t => t != "null") with
      | some nonNullType => dispatchSingle nonNullType
      | none => .unsupportedType "undefined"
    else .multiTypeError

/-- Resolver `unwrapSchema` always lands on a non-wrapper node. -/
theorem unwrapSchema_not_wrapper : (s : Schema) → isWrapperKind (unwrapSchema s) = false
  | .optional inner => by
      simp only [unwrapSchema]; exact unwrapSchema_not_wrapper inner
  | .nullable inner => by
      simp only [unwrapSchema]; exact unwrapSchema_not_wrapper inner
  | .default _ inner => by
      simp only [unwrapSchema]; exact unwrapSchema_not_wrapper inner
  | .prefault _ inner => by
      simp only [unwrapSchema]; exact unwrapSchema_not_wrapper inner
  | .readonly inner => by
      simp only [unwrapSchema]; exact unwrapSchema_not_wrapper inner
  | .nonoptional inner => by
      simp only [unwrapSchema]; exact unwrapSchema_not_wrapper inner
  | .lazy inner => by
      simp only [unwrapSchema]; exact unwrapSchema_not_wrapper inner
  | .string => by simp [unwrapSchema, isWrapperKind]
  | .number => by simp [unwrapSchema, isWrapperKind]
  | .boolean => by simp [unwrapSchema, isWrapperKind]
  | .bigint => by simp [unwrapSchema, isWrapperKind]
  | .date => by simp [unwrapSchema, isWrapperKind]
  | .array checks element => by simp [unwrapSchema, isWrapperKind]
  | .object shape => by simp [unwrapSchema, isWrapperKind]
  | .union options => by simp [unwrapSchema, isWrapperKind]
  | .tuple items => by simp [unwrapSchema, isWrapperKind]
  | .enum entries => by simp [unwrapSchema, isWrapperKind]
  | .literal values => by simp [unwrapSchema, isWrapperKind]
  | .unrecognized tag => by simp [unwrapSchema, isWrapperKind]

/-- On a node that is not of a wrapper kind, `unwrapSchema` is the
identity. -/
theorem unwrapSchema_of_not_wrapper (s : Schema) (h : isWrapperKind s = false) :
    unwrapSchema s = s := by
  cases s <;> simp_all [isWrapperKind, unwrapSchema]

/-- C8: the unwrap resolver is idempotent — for every `SchemaNode`,
`unwrap(unwrap(n)) = unwrap(n)`, because `unwrap` always returns a node
that is not of a wrapper kind and is the identity on such nodes. -/
theorem unwrapSchema_idempotent (s : Schema) :
    unwrapSchema (unwrapSchema s) = unwrapSchema s
    ∧ isWrapperKind (unwrapSchema s) = false :=
  ⟨unwrapSchema_of_not_wrapper _ (unwrapSchema_not_wrapper s), unwrapSchema_not_wrapper s⟩

/-- C1: evaluation of the requiredness resolvers at the failing input
`prefault(optional(string))` — `isRequired` does not walk through the
`prefault` wrapper (it handles only `nullable`/`default`/`readonly`) and
answers `true`, while `isOptional` does walk through `prefault`, finds the
`optional` wrapper, and answers `true`; hence `isRequired(n)` is not the
negation of `isOptional(n)` there, contrary to the requiredness
contract. -/
theorem isRequired_isOptional_diverge_on_prefault :
    isRequired (Schema.prefault (.value (.str "x")) (Schema.optional Schema.string)) = true
    ∧ isOptional (Schema.prefault (.value (.str "x")) (Schema.optional Schema.string)) = true
    ∧ isRequired (Schema.prefault (.value (.str "x")) (Schema.optional Schema.string))
        ≠ !isOptional (Schema.prefault (.value (.str "x")) (Schema.optional Schema.string)) := by
  refine ⟨rfl, rfl, ?_⟩
  simp [isRequired, isOptional]

/-- C2 counterexample: the default-value lookup does peel through an
`optional` wrapper — on `optional(default(5, number))` the declared
default `5` is found and `generateInitialData` returns it, not absent. -/
theorem getDefaultValue_peels_optional_cex :
    getDefaultValue (Schema.optional (Schema.default (.value (.num 5)) Schema.number))
      = .ok (.num 5)
    ∧ generateInitialData (Schema.optional (Schema.default (.value (.num 5)) Schema.number))
      = .ok (.num 5)
    ∧ generateInitialData (Schema.optional (Schema.default (.value (.num 5)) Schema.number))
      ≠ .ok Value.undefined := by
  refine ⟨rfl, ?_, ?_⟩ <;> simp [generateInitialData, getDefaultValue, Value.isUndefined]

/-- C2 amended: `getDefaultValue` recurses through `optional` as well as
`nullable`/`readonly`/`nonoptional` wrappers (and returns the declared
value at a `default` wrapper), so a default whose only path from the node
passes through an `optional` wrapper is still found, and
`generateInitialData` returns that default rather than absent. -/
theorem getDefaultValue_through_optional (s : Schema) (v : Value) :
    getDefaultValue (Schema.optional s) = getDefaultValue s
    ∧ getDefaultValue (Schema.nullable s) = getDefaultValue s
    ∧ getDefaultValue (Schema.readonly s) = getDefaultValue s
    ∧ getDefaultValue (Schema.nonoptional s) = getDefaultValue s
    ∧ getDefaultValue (Schema.default (.value v) s) = .ok v
    ∧ (v ≠ Value.undefined →
        generateInitialData (Schema.optional (Schema.default (.value v) s)) = .ok v) := by
  refine ⟨rfl, rfl, rfl, rfl, rfl, fun hv => ?_⟩
  have hu : v.isUndefined = false := by cases v <;> simp_all [Value.isUndefined]
  simp [generateInitialData, getDefaultValue, hu]

theorem getDefaultValue_through_optional_witness :
    Value.num 5 ≠ Value.undefined
    ∧ generateInitialData (Schema.optional (Schema.default (.value (.num 5)) Schema.number))
      = .ok (.num 5) :=
  ⟨by simp, (getDefaultValue_through_optional Schema.number (.num 5)).2.2.2.2.2 (by simp)⟩

/-- C5 counterexample: a throwing default-value producer is not contained
— `generateInitialData` propagates the exception, both for the wrapped
field itself and out of the synthesis of a whole object containing such a
field, instead of treating the field as absent. -/
theorem producer_throw_propagates_cex :
    generateInitialData (Schema.default (.producer (.error "boom")) Schema.string)
      = .error "boom"
    ∧ generateInitialData
        (Schema.object
          [("a", Schema.default (.producer (.error "boom")) Schema.string),
           ("b", Schema.string)])
      = .error "boom" := by
  constructor <;>
    simp [generateInitialData, genFields, getDefaultValue, isOptional, unwrapSchema,
      Value.isUndefined]

/-- C5 amended: if a declared default-value producer throws, the
exception propagates out of the whole synthesis — `generateInitialData`
of the wrapped field, and of any object whose first field is that wrapped
field, returns the error rather than a document with the field absent. -/
theorem producer_throw_propagates (msg : String) (s : Schema) (key : String)
    (rest : List (String × Schema)) :
    generateInitialData (Schema.default (.producer (.error msg)) s) = .error msg
    ∧ generateInitialData
        (Schema.object ((key, Schema.default (.producer (.error msg)) s) :: rest))
      = .error msg := by
  constructor <;>
    simp [generateInitialData, genFields, getDefaultValue, isOptional, unwrapSchema,
      Value.isUndefined]

/-- C7: for an array schema with a declared `min_size` minimum `n`,
`generateInitialData` returns a list of length exactly `n` whose every
element is the element schema's own initial data; with no declared
minimum it returns the empty list; concretely, minimum 2 with string
elements yields a two-element list of (absent) string defaults. -/
theorem generateInitialData_array (checks : List ArrayCheck) (element : Schema)
    (n : Nat) (v : Value) :
    (findMinSize checks = some n → generateInitialData element = .ok v →
      generateInitialData (Schema.array checks element) = .ok (.list (List.replicate n v))
      ∧ (List.replicate n v).length = n
      ∧ ∀ x ∈ List.replicate n v, x = v)
    ∧ (findMinSize checks = none →
        generateInitialData (Schema.array checks element) = .ok (.list []))
    ∧ generateInitialData (Schema.array [ArrayCheck.min_size 2] Schema.string)
      = .ok (.list [Value.undefined, Value.undefined]) := by
  refine ⟨fun hmin helem => ⟨?_, by simp, fun x hx => List.eq_of_mem_replicate hx⟩,
    fun hmin => ?_, ?_⟩
  · simp [generateInitialData, getDefaultValue, isOptional, unwrapSchema, Value.isUndefined,
      hmin, helem]
  · simp [generateInitialData, getDefaultValue, isOptional, unwrapSchema, Value.isUndefined,
      hmin]
  · simp [generateInitialData, getDefaultValue, isOptional, unwrapSchema, Value.isUndefined,
      findMinSize]

theorem generateInitialData_array_witness :
    findMinSize [ArrayCheck.min_size 2] = some 2
    ∧ generateInitialData Schema.string = .ok Value.undefined
    ∧ generateInitialData (Schema.array [ArrayCheck.min_size 2] Schema.string)
      = .ok (.list (List.replicate 2 Value.undefined)) :=
  ⟨rfl, by simp [generateInitialData, getDefaultValue, isOptional, unwrapSchema, Value.isUndefined],
    ((generateInitialData_array [ArrayCheck.min_size 2] Schema.string 2 Value.undefined).1 rfl
      (by simp [generateInitialData, getDefaultValue, isOptional, unwrapSchema,
        Value.isUndefined])).1⟩

/-- C3: the error indexer re-keys every missing-required-field issue from
the parent path to the child path (parent path + `/` + missing field
name) — for any instance path and missing property, a `required` issue is
bucketed under the child key; concretely, a `required` issue at parent
path `/employment` naming missing property `role` is returned by lookup
at `/employment/role` and not by lookup at `/employment`. -/
theorem required_issue_rekeyed (ip mp m : String) :
    missingKeyOf ⟨ip, "required", mp, m⟩
      = (if fullPathOf ip = "/" then "" else fullPathOf ip) ++ "/" ++ mp
    ∧ getErrorsAtPath [⟨"/employment", "required", "role", "Missing role"⟩]
        ["employment", "role"]
      = [⟨"/employment", "required", "role", "Missing role"⟩]
    ∧ getErrorsAtPath [⟨"/employment", "required", "role", "Missing role"⟩]
        ["employment"]
      = [] := by
  refine ⟨by simp [missingKeyOf], by decide, by decide⟩

/-- Pushing one error onto the map re-arranges the bucketed issues only
up to permutation: the result holds exactly the old issues plus the new
one. -/
theorem join_pushAt (mp : List (String × List ErrorObject)) (key : String) (e : ErrorObject) :
    List.Perm (List.join (List.map Prod.snd (pushAt mp key e)))
      (e :: List.join (List.map Prod.snd mp)) := by
  induction mp with
  | nil => simp [pushAt]
  | cons kb rest ih =>
    obtain ⟨k, bucket⟩ := kb
    by_cases hk : k = key
    · subst hk
      simp only [pushAt, if_pos]
      simp only [List.map_cons, List.join_cons, List.append_assoc, List.singleton_append]
      exact List.perm_middle
    · simp only [pushAt, if_neg hk, List.map_cons, List.join_cons]
      exact (List.Perm.append_left bucket ih).trans List.perm_middle

/-- Folding the whole issue list into the map appends, up to permutation,
every issue exactly once to whatever was already bucketed. -/
theorem join_foldl_pushAt (errors : List ErrorObject)
    (mp : List (String × List ErrorObject)) :
    List.Perm
      (List.join (List.map Prod.snd
        (errors.foldl (fun m e => pushAt m (missingKeyOf e) e) mp)))
      (List.join (List.map Prod.snd mp) ++ errors) := by
  induction errors generalizing mp with
  | nil => simp
  | cons e es ih =>
    simp only [List.foldl_cons]
    exact (ih (pushAt mp (missingKeyOf e) e)).trans
      (((join_pushAt mp (missingKeyOf e) e).append_right es).trans List.perm_middle.symm)

/-- C4: indexing places each input issue in exactly one bucket — the
multiset union (concatenation up to permutation) of all buckets of
`buildErrorMap` equals the input list with each issue appearing exactly
once, and the bucket lengths sum to the input length. -/
theorem errorIndex_buckets_partition (errors : List ErrorObject) :
    List.Perm (List.join (List.map Prod.snd (buildErrorMap errors))) errors
    ∧ (List.map (fun b => b.2.length) (buildErrorMap errors)).sum = errors.length := by
  have h := join_foldl_pushAt errors []
  simp only [List.map_nil, List.join, List.nil_append] at h
  refine ⟨h, ?_⟩
  have hlen := h.length_eq
  rw [List.length_join, List.map_map] at hlen
  simpa [Function.comp] using hlen

/-- C9 counterexample: the zod error lookup does return an
absent/undefined result — on an empty issue list (and on a list whose
single issue lies at a different path) the lookup yields `none`
(JavaScript `undefined`), not an empty list. -/
theorem getIssuesAtPath_returns_undefined_cex :
    getIssuesAtPath ([] : List ZodIssue) ["a"] = none
    ∧ getIssuesAtPath [⟨[ZodSeg.str "b"], "m"⟩] ["a"] = none := by
  constructor <;> decide

/-- C9 amended: neither lookup signals an error, but their empty cases
differ — the json-schema `getErrorsAtPath` returns `[]` when no bucket
exists for the queried path, while the zod `getIssuesAtPath` returns
`undefined` (`none`) exactly when no issue's dot-joined path equals the
queried dot-joined path, and any list it does return is nonempty. -/
theorem lookup_empty_behavior (errors : List ErrorObject) (path : List String)
    (issues : List ZodIssue) (zpath : List String) :
    (lookupBucket (buildErrorMap errors) ("/" ++ joinStr "/" path) = none →
      getErrorsAtPath errors path = [])
    ∧ (getIssuesAtPath issues zpath = none ↔
        issues.filter
          (fun issue => joinStr "." (issue.path.map ZodSeg.toStr) == joinStr "." zpath)
          = [])
    ∧ (∀ l, getIssuesAtPath issues zpath = some l → l ≠ []) := by
  refine ⟨fun h => by simp [getErrorsAtPath, h], ?_, ?_⟩
  · simp only [getIssuesAtPath]
    split
    · rename_i hlen
      constructor
      · intro h; exact absurd h (by simp)
      · intro h; rw [h] at hlen; simp at hlen
    · rename_i hlen
      simp only [not_lt, Nat.le_zero, List.length_eq_zero] at hlen
      simp [hlen]
  · intro l hl
    simp only [getIssuesAtPath] at hl
    split at hl
    · rename_i hlen
      cases hl
      intro hnil
      rw [hnil] at hlen
      simp at hlen
    · cases hl

theorem lookup_empty_behavior_witness :
    getErrorsAtPath [] ["a"] = []
    ∧ getIssuesAtPath ([] : List ZodIssue) ["a"] = none :=
  ⟨(lookup_empty_behavior [] ["a"] [] ["a"]).1 (by decide),
    (lookup_empty_behavior [] ["a"] [] ["a"]).2.1.mpr (by decide)⟩

/-- C10: the zod error lookup identifies lookup paths only up to their
dot-joined serialization — any two paths whose segments join with `.` to
the same string receive the same result from `getIssuesAtPath`, so
distinct field addresses that serialize alike share one error bucket. -/
theorem getIssuesAtPath_dotjoin_quotient (issues : List ZodIssue) (p q : List String)
    (h : joinStr "." p = joinStr "." q) :
    getIssuesAtPath issues p = getIssuesAtPath issues q := by
  simp only [getIssuesAtPath, h]

theorem getIssuesAtPath_dotjoin_quotient_witness :
    joinStr "." ["a.b"] = joinStr "." ["a", "b"]
    ∧ getIssuesAtPath [⟨[ZodSeg.str "a", ZodSeg.str "b"], "m"⟩] ["a.b"]
      = getIssuesAtPath [⟨[ZodSeg.str "a", ZodSeg.str "b"], "m"⟩] ["a", "b"] :=
  ⟨by decide,
    getIssuesAtPath_dotjoin_quotient [⟨[ZodSeg.str "a", ZodSeg.str "b"], "m"⟩]
      ["a.b"] ["a", "b"] (by decide)⟩

/-- C6 counterexample: the nullable-pair collapse does not apply to every
non-null member kind — a union of exactly `{object, null}` (and likewise
`{array, null}`) renders the multi-type error placeholder, not the
object/array template of the non-null member. -/
theorem nullpair_object_not_collapsed_cex :
    renderTemplateDispatch (.multi ["object", "null"]) = TemplateKind.multiTypeError
    ∧ renderTemplateDispatch (.multi ["object", "null"])
        ≠ renderTemplateDispatch (.single "object")
    ∧ renderTemplateDispatch (.multi ["array", "null"]) = TemplateKind.multiTypeError
    ∧ renderTemplateDispatch (.multi ["array", "null"])
        ≠ renderTemplateDispatch (.single "array") := by
  decide

/-- C6 amended: the two-member null-union collapse applies exactly when
the non-null member is one of `string`, `number`, `boolean`, `integer` —
for those the dispatcher collapses (in either member order) to the
non-null member's template, and in particular `{string, null}` dispatches
to the String template; a two-member null-union whose non-null member is
`object` or `array` instead renders the multi-type error placeholder. -/
theorem nullpair_collapse_scalars (t : String)
    (h : t = "string" ∨ t = "number" ∨ t = "boolean" ∨ t = "integer") :
    renderTemplateDispatch (.multi [t, "null"]) = dispatchSingle t
    ∧ renderTemplateDispatch (.multi ["null", t]) = dispatchSingle t
    ∧ renderTemplateDispatch (.multi ["string", "null"]) = TemplateKind.stringTemplate
    ∧ renderTemplateDispatch (.multi ["object", "null"]) = TemplateKind.multiTypeError
    ∧ renderTemplateDispatch (.multi ["array", "null"]) = TemplateKind.multiTypeError := by
  rcases h with h | h | h | h <;> subst h <;> decide

theorem nullpair_collapse_scalars_witness :
    ("string" = "string" ∨ "string" = "number" ∨ "string" = "boolean"
      ∨ "string" = "integer")
    ∧ renderTemplateDispatch (.multi ["string", "null"]) = dispatchSingle "string" :=
  ⟨Or.inl rfl, (nullpair_collapse_scalars "string" (Or.inl rfl)).1⟩
